import Mathlib

/-!
Shallow embedding of the shopping-list application (`src/script.js`).

The script keeps three representations in sync:
  * `localStorage` under key `"items"` (a JSON array of strings),
  * the `<ul id="item-list">` DOM children (one `<li>` per item, each
    carrying an optional `edit-mode` class and a `style.display` value),
  * the form input field plus a module-level `isEditMode` flag.

We model all of them in one record.  `localStorage.getItem("items")` is
either absent (`none`) or the serialization of a list of strings; since
`JSON.stringify`/`JSON.parse` round-trip a string array, storage is
embedded as `Option (List String)`.  The confirmation prompt
(`confirm("Are you sure?")`) is an external collaborator, embedded as a
boolean parameter.  Purely presentational state (button label/colour,
icons) is outside the claims and not modelled.
-/

/-- One `<li>` child of the item list: its text node, whether it carries
the `edit-mode` class, and whether `style.display` leaves it visible
(`"flex"` = `true`, `"none"` = `false`; a freshly created element is
visible). -/
structure DOMItem where
  text : String
  editMode : Bool
  visible : Bool
  deriving DecidableEq, Repr

/-- The mutable state of `script.js`: parsed `localStorage["items"]`,
the item-list DOM children, the form input value, and the module-level
`isEditMode` flag, plus the `hidden` class state of the clear button and
the filter input. -/
structure AppState where
  storage : Option (List String)
  domItems : List DOMItem
  itemInput : String
  isEditMode : Bool
  clearBtnHidden : Bool
  filterHidden : Bool
  deriving DecidableEq, Repr

/-- Outcome of a form submission: which `alert` fired, a `TypeError`
(when `isEditMode` is set but no element carries the `edit-mode` class,
`itemList.querySelector(".edit-mode")` returns `null` and
`.textContent` throws), or normal completion. -/
inductive SubmitOutcome where
  | emptyAlert
  | duplicateAlert
  | crash
  | success
  deriving DecidableEq, Repr

/-- `getItemsFromStorage`: `null` parses to `[]`, otherwise the stored
array is returned. -/
def getItemsFromStorage (s : AppState) : List String :=
  match s.storage with
  | none => []
  | some items => items

/-- `addItemToStorage`: read the stored array, `push` the new item, and
write the whole array back. -/
def addItemToStorage (item : String) (s : AppState) : AppState :=
  { s with storage := some (getItemsFromStorage s ++ [item]) }

/-- `removeItemFromStorage`: `itemsFromStorage.filter((i) => i !== item)`,
then write the result back. -/
def removeItemFromStorage (item : String) (s : AppState) : AppState :=
  { s with storage := some ((getItemsFromStorage s).filter (fun i => i ≠ item)) }

/-- `addItemToDOM`: append a fresh `<li>` (no classes, default display)
holding the item text to the end of the list. -/
def addItemToDOM (item : String) (s : AppState) : AppState :=
  { s with domItems := s.domItems ++ [{ text := item, editMode := false, visible := true }] }

/-- JS `hay.includes(needle)`: substring containment. -/
def strIncludes (hay needle : String) : Bool :=
  decide (needle.data <:+: hay.data)

/-- JS `s.toLowerCase()`: lowercase each character. -/
def jsToLower (s : String) : String :=
  ⟨s.data.map Char.toLower⟩

/-- `checkIfItemExists`: lowercase every stored item and test membership
of the lowercased candidate. -/
def checkIfItemExists (item : String) (s : AppState) : Bool :=
  ((getItemsFromStorage s).map jsToLower).contains (jsToLower item)

/-- `checkUI`: clear the input, hide the clear button and the filter
input exactly when the list has no `<li>` children (show them
otherwise), and reset `isEditMode`. -/
def checkUI (s : AppState) : AppState :=
  let s := { s with itemInput := "" }
  if s.domItems.length = 0 then
    { s with clearBtnHidden := true, filterHidden := true, isEditMode := false }
  else
    { s with clearBtnHidden := false, filterHidden := false, isEditMode := false }

/-- `itemList.querySelector(".edit-mode")` followed by
`itemToEdit.remove()`: drop the first element carrying the `edit-mode`
class. -/
def removeFirstEditMode : List DOMItem → List DOMItem
  | [] => []
  | it :: rest => if it.editMode then rest else it :: removeFirstEditMode rest

/-- `onAddItemSubmit`: validate the input, then either perform the
edit-mode removal of the old item or the idle-mode duplicate check, and
on the fall-through path add the new item to DOM and storage, run
`checkUI`, and clear the input. -/
def onAddItemSubmit (s : AppState) : AppState × SubmitOutcome :=
  let newItem := s.itemInput
  if newItem = "" then
    (s, SubmitOutcome.emptyAlert)
  else
    let branch : Except SubmitOutcome AppState :=
      if s.isEditMode then
        match s.domItems.find? (fun it => it.editMode) with
        | none => Except.error SubmitOutcome.crash
        | some itemToEdit =>
          let s := removeItemFromStorage itemToEdit.text s
          Except.ok { s with domItems := removeFirstEditMode s.domItems, isEditMode := false }
      else if checkIfItemExists newItem s then
        Except.error SubmitOutcome.duplicateAlert
      else
        Except.ok s
    match branch with
    | Except.error o => (s, o)
    | Except.ok s1 =>
      let s2 := addItemToStorage newItem (addItemToDOM newItem s1)
      let s3 := checkUI s2
      ({ s3 with itemInput := "" }, SubmitOutcome.success)

/-- `setItemToEdit` on the `<li>` at position `idx`: set `isEditMode`,
strip the `edit-mode` class from every `<li>`, add it to the selected
one, and pre-populate the input with its text.  (The script only ever
calls this on an existing list element; an out-of-range index leaves the
state unchanged.) -/
def setItemToEdit (idx : Nat) (s : AppState) : AppState :=
  match s.domItems[idx]? with
  | none => s
  | some it =>
    { s with
      isEditMode := true
      domItems := s.domItems.enum.map (fun p => { p.2 with editMode := p.1 == idx })
      itemInput := it.text }

/-- `removeItem` on the `<li>` at position `idx`, with the result of the
`confirm("Are you sure?")` collaborator passed in: on `true`, remove the
element from the DOM, remove its text from storage, and run `checkUI`;
on `false`, do nothing. -/
def removeItem (idx : Nat) (confirmResult : Bool) (s : AppState) : AppState :=
  if confirmResult then
    match s.domItems[idx]? with
    | none => s
    | some it =>
      let s := { s with domItems := s.domItems.eraseIdx idx }
      checkUI (removeItemFromStorage it.text s)
  else
    s

/-- `clearItems`: remove every `<li>`, `localStorage.removeItem("items")`,
then `checkUI`. -/
def clearItems (s : AppState) : AppState :=
  checkUI { s with domItems := [], storage := none }

/-- `filterItems` with the filter field holding `target`: lowercase the
query, and for each `<li>` set `style.display` to `"flex"` when its
lowercased text contains the query and `"none"` otherwise. -/
def filterItems (target : String) (s : AppState) : AppState :=
  let targetItem := jsToLower target
  { s with domItems := s.domItems.map (fun it =>
      { it with visible := strIncludes (jsToLower it.text) targetItem }) }

/-- The clear button and the filter input are hidden exactly when the
displayed list is empty. -/
def uiConsistent (s : AppState) : Prop :=
  s.clearBtnHidden = s.domItems.isEmpty ∧ s.filterHidden = s.domItems.isEmpty

/-- The controller is back in the Idle state with a cleared input
field. -/
def idleCleared (s : AppState) : Prop :=
  s.isEditMode = false ∧ s.itemInput = ""

/-! ### Helper lemmas -/

theorem getItemsFromStorage_some (s : AppState) (S : List String)
    (h : s.storage = some S) : getItemsFromStorage s = S := by
  simp [getItemsFromStorage, h]

theorem getItemsFromStorage_add (x : String) (s : AppState) :
    getItemsFromStorage (addItemToStorage x s) = getItemsFromStorage s ++ [x] := by
  simp [addItemToStorage, getItemsFromStorage]

theorem checkUI_domItems (s : AppState) : (checkUI s).domItems = s.domItems := by
  simp only [checkUI]
  split <;> rfl

theorem checkUI_isEditMode (s : AppState) : (checkUI s).isEditMode = false := by
  simp only [checkUI]
  split <;> rfl

theorem checkUI_itemInput (s : AppState) : (checkUI s).itemInput = "" := by
  simp only [checkUI]
  split <;> rfl

theorem checkUI_uiConsistent (s : AppState) : uiConsistent (checkUI s) := by
  simp only [checkUI, uiConsistent]
  split <;> rename_i h <;>
    simp_all [List.length_eq_zero, List.isEmpty_iff]

theorem checkUI_eq (s : AppState) :
    checkUI s =
      ⟨s.storage, s.domItems, "", false, s.domItems.isEmpty, s.domItems.isEmpty⟩ := by
  simp only [checkUI]
  split <;> rename_i h <;> simp_all [List.length_eq_zero, List.isEmpty_iff]

theorem checkUI_idem (s : AppState) : checkUI (checkUI s) = checkUI s := by
  rw [checkUI_eq, checkUI_eq]

theorem getItems_foldl_add (S : List String) (s : AppState) :
    getItemsFromStorage (S.foldl (fun st x => addItemToStorage x st) s) =
      getItemsFromStorage s ++ S := by
  induction S generalizing s with
  | nil => simp
  | cons x S ih =>
    simp [List.foldl_cons, ih, getItemsFromStorage_add]

theorem onAddItemSubmit_success_post (s : AppState)
    (h : (onAddItemSubmit s).2 = SubmitOutcome.success) :
    uiConsistent (onAddItemSubmit s).1 ∧ idleCleared (onAddItemSubmit s).1 := by
  by_cases h0 : s.itemInput = ""
  · simp [onAddItemSubmit, h0] at h
  · by_cases h1 : s.isEditMode
    · cases hf : s.domItems.find? (fun it => it.editMode) with
      | none => simp [onAddItemSubmit, h0, h1, hf] at h
      | some it =>
        simp [onAddItemSubmit, h0, h1, hf, uiConsistent, idleCleared, checkUI_eq]
    · by_cases h2 : checkIfItemExists s.itemInput s
      · simp [onAddItemSubmit, h0, h1, h2] at h
      · simp [onAddItemSubmit, h0, h1, h2, uiConsistent, idleCleared, checkUI_eq]

/-! ### Claims -/

/-- C1, counterexample: with `["Milk", "Milk"]` stored, removing
`"Milk"` persists `[]`, not the `["Milk"]` that removing only the first
matching element would leave — the later duplicate is not left in
place. -/
theorem c1_counterexample :
    (removeItemFromStorage "Milk"
        ⟨some ["Milk", "Milk"], [], "", false, false, false⟩).storage = some [] ∧
    some ([] : List String) ≠ some ["Milk"] := by
  constructor
  · rfl
  · decide

/-- C1, amended: for every stored sequence and every item text `t`, the
store's remove operation removes every element equal to `t` by exact
(case-sensitive) text equality — not only the first; duplicates of `t`
are removed too — keeping all other elements, with multiplicity, in
their original order, and persists the resulting sequence. -/
theorem c1_remove_all_occurrences (s : AppState) (t : String) :
    (removeItemFromStorage t s).storage =
      some (getItemsFromStorage (removeItemFromStorage t s)) ∧
    List.Sublist (getItemsFromStorage (removeItemFromStorage t s)) (getItemsFromStorage s) ∧
    ∀ x : String, (getItemsFromStorage (removeItemFromStorage t s)).count x =
      if x = t then 0 else (getItemsFromStorage s).count x := by
  refine ⟨rfl, ?_, ?_⟩
  · simp [removeItemFromStorage, getItemsFromStorage, List.filter_sublist]
  · intro x
    by_cases hx : x = t
    · subst hx
      simp only [removeItemFromStorage]
      simp [getItemsFromStorage, List.count_eq_zero, List.mem_filter]
    · simp only [removeItemFromStorage]
      simp [getItemsFromStorage, hx, List.count_filter]

/-- C2, counterexample: the whitespace-only input `" "` is not rejected:
starting from an empty store, submitting it succeeds and stores
`[" "]` — the validation compares against the empty string only, with no
trimming. -/
theorem c2_counterexample :
    (onAddItemSubmit ⟨none, [], " ", false, true, true⟩).2 = SubmitOutcome.success ∧
    (onAddItemSubmit ⟨none, [], " ", false, true, true⟩).1.storage = some [" "] := by
  decide

/-- C2, amended: for every input text exactly equal to the empty string
(no trimming is applied, so whitespace-only strings such as `" "` are
accepted rather than rejected), submitItem fails with an empty-input
report and makes no state change: the stored sequence, the displayed
list, the edit-mode state and the input field are all unchanged. -/
theorem c2_empty_input_rejected (s : AppState) (h : s.itemInput = "") :
    onAddItemSubmit s = (s, SubmitOutcome.emptyAlert) := by
  simp [onAddItemSubmit, h]

/-- C2, witness: submitting an empty input in edit mode with one stored
item reports the empty-input alert and leaves the whole state (storage,
display, edit mode) unchanged. -/
theorem c2_witness :
    onAddItemSubmit ⟨some ["Eggs"], [⟨"Eggs", true, true⟩], "", true, false, false⟩ =
      (⟨some ["Eggs"], [⟨"Eggs", true, true⟩], "", true, false, false⟩,
        SubmitOutcome.emptyAlert) :=
  c2_empty_input_rejected _ rfl

/-- C7: declining the confirmation prompt makes `removeItem` a complete
no-op — the stored sequence, the persisted storage, and the displayed
list are all unchanged, for every item position and every state. -/
theorem c7_remove_declined_noop (idx : Nat) (s : AppState) :
    removeItem idx false s = s := rfl

/-- C9: removing a text `t` that is not present in the stored sequence
(by exact equality) is a silent no-op: the persisted sequence after the
call equals the sequence before it. -/
theorem c9_remove_absent_noop (s : AppState) (t : String)
    (h : t ∉ getItemsFromStorage s) :
    (removeItemFromStorage t s).storage = some (getItemsFromStorage s) := by
  simp only [removeItemFromStorage, Option.some.injEq]
  refine List.filter_eq_self.mpr (fun a ha => ?_)
  have hne : a ≠ t := fun he => h (he ▸ ha)
  simp [hne]

/-- C9, witness: removing `"Bread"` from a store holding `["Milk"]`
persists `["Milk"]` unchanged. -/
theorem c9_witness :
    (removeItemFromStorage "Bread"
        ⟨some ["Milk"], [], "", false, false, false⟩).storage = some ["Milk"] :=
  c9_remove_absent_noop _ _ (by decide)

/-- C3: from store `["Eggs", "Milk"]`, selecting `"Milk"` (position 1)
for edit and then submitting `"Butter"` yields store
`["Eggs", "Butter"]` — the old text is removed and the new text appended
at the end, in storage and in the displayed list alike — and the
controller returns to the Idle (non-editing) state. -/
theorem c3_edit_replaces :
    let s0 : AppState :=
      ⟨some ["Eggs", "Milk"],
        [⟨"Eggs", false, true⟩, ⟨"Milk", false, true⟩], "", false, false, false⟩
    let selected := setItemToEdit 1 s0
    let result := onAddItemSubmit { selected with itemInput := "Butter" }
    selected.isEditMode = true ∧
    selected.itemInput = "Milk" ∧
    result.1.storage = some ["Eggs", "Butter"] ∧
    result.1.domItems.map DOMItem.text = ["Eggs", "Butter"] ∧
    result.1.isEditMode = false ∧
    result.2 = SubmitOutcome.success := by
  decide

/-- C4: in the Idle (non-editing) state, submitting a non-empty text
that matches a stored item ignoring case fails with the duplicate-item
report and changes nothing: the whole state — stored sequence included —
is returned unchanged, so the input field still holds the typed text. -/
theorem c4_duplicate_rejected (s : AppState) (hidle : s.isEditMode = false)
    (hne : s.itemInput ≠ "") (hdup : checkIfItemExists s.itemInput s = true) :
    onAddItemSubmit s = (s, SubmitOutcome.duplicateAlert) := by
  simp [onAddItemSubmit, hne, hidle, hdup]

/-- C4, witness: with `"Milk"` stored, submitting `"milk"` in the Idle
state reports the duplicate alert and leaves the state — including the
typed input `"milk"` — unchanged. -/
theorem c4_witness :
    onAddItemSubmit
        ⟨some ["Milk"], [⟨"Milk", false, true⟩], "milk", false, false, false⟩ =
      (⟨some ["Milk"], [⟨"Milk", false, true⟩], "milk", false, false, false⟩,
        SubmitOutcome.duplicateAlert) :=
  c4_duplicate_rejected _ rfl (by decide) (by decide)

/-- C5: persistence round-trips: persisting any sequence `S` (writing it
as the stored value, as every mutator's final step does) and then
loading yields exactly `S`, order preserved — in particular building the
store by successive adds from a never-persisted state loads back the
same sequence in insertion order — and loading when nothing was ever
persisted yields the empty sequence. -/
theorem c5_roundtrip (S : List String) (s : AppState) :
    getItemsFromStorage { s with storage := some S } = S ∧
    getItemsFromStorage { s with storage := none } = [] ∧
    getItemsFromStorage
        (S.foldl (fun st x => addItemToStorage x st) { s with storage := none }) = S := by
  refine ⟨rfl, rfl, ?_⟩
  rw [getItems_foldl_add]
  rfl

/-- C6: for every query string, filtering leaves the stored sequence,
the persisted storage, the displayed item texts, the input and the
edit-mode state unchanged; it only sets per-item visibility, where an
item is visible if and only if its lowercased text contains the
lowercased query as a substring — so the empty query makes every item
visible. -/
theorem c6_filter_frame (q : String) (s : AppState) :
    (filterItems q s).storage = s.storage ∧
    (filterItems q s).domItems.map DOMItem.text = s.domItems.map DOMItem.text ∧
    (filterItems q s).itemInput = s.itemInput ∧
    (filterItems q s).isEditMode = s.isEditMode ∧
    ((filterItems q s).domItems.all
      (fun it => it.visible == strIncludes (jsToLower it.text) (jsToLower q))) = true ∧
    ((filterItems "" s).domItems.all (fun it => it.visible)) = true := by
  refine ⟨rfl, ?_, rfl, rfl, ?_, ?_⟩
  · simp [filterItems]
  · simp [filterItems, List.all_eq_true]
  · simp [filterItems, strIncludes, jsToLower, List.all_eq_true, List.nil_infix]

/-- C8: after every mutating operation — a successful submit (add or
edit), a confirmed remove of an existing item, or a clear — the clear
and filter controls are hidden exactly when the displayed list is empty
and shown otherwise; the visibility `checkUI` computes is a function of
the list's emptiness only, and `checkUI` is idempotent, so recomputing
it never changes state further. -/
theorem c8_visibility_refresh (s : AppState) (idx : Nat) :
    uiConsistent (clearItems s) ∧
    (idx < s.domItems.length → uiConsistent (removeItem idx true s)) ∧
    ((onAddItemSubmit s).2 = SubmitOutcome.success → uiConsistent (onAddItemSubmit s).1) ∧
    (checkUI s).clearBtnHidden = s.domItems.isEmpty ∧
    (checkUI s).filterHidden = s.domItems.isEmpty ∧
    checkUI (checkUI s) = checkUI s := by
  refine ⟨checkUI_uiConsistent _, ?_,
    fun h => (onAddItemSubmit_success_post s h).1, ?_, ?_, checkUI_idem s⟩
  · intro hlt
    simp only [removeItem, List.getElem?_eq_getElem hlt, if_true]
    exact checkUI_uiConsistent _
  · simp [checkUI_eq]
  · simp [checkUI_eq]

/-- C8, witness: removing the only item with confirmation, and
successfully adding `"x"`, both leave the control visibility matching
the resulting list's emptiness. -/
theorem c8_witness :
    uiConsistent (removeItem 0 true
      (⟨some ["Eggs"], [⟨"Eggs", false, true⟩], "x", false, false, false⟩ : AppState)) ∧
    uiConsistent (onAddItemSubmit
      (⟨some ["Eggs"], [⟨"Eggs", false, true⟩], "x", false, false, false⟩ : AppState)).1 := by
  have h := c8_visibility_refresh
    ⟨some ["Eggs"], [⟨"Eggs", false, true⟩], "x", false, false, false⟩ 0
  exact ⟨h.2.1 (by decide), h.2.2.1 (by decide)⟩

/-- C10: every operation that completes a mutation — a successful submit
(add or edit), a confirmed remove of an existing item, or a clear — ends
with the controller in the Idle (non-editing) state and the input field
cleared; in particular a confirmed remove or a clear performed while an
edit was pending silently cancels the edit session. -/
theorem c10_mutations_end_idle (s : AppState) (idx : Nat) :
    ((onAddItemSubmit s).2 = SubmitOutcome.success → idleCleared (onAddItemSubmit s).1) ∧
    (idx < s.domItems.length → idleCleared (removeItem idx true s)) ∧
    idleCleared (clearItems s) := by
  refine ⟨fun h => (onAddItemSubmit_success_post s h).2, ?_, ?_⟩
  · intro hlt
    simp only [removeItem, List.getElem?_eq_getElem hlt, if_true]
    exact ⟨checkUI_isEditMode _, checkUI_itemInput _⟩
  · exact ⟨checkUI_isEditMode _, checkUI_itemInput _⟩

/-- C10, witness: with `"Milk"` selected for edit, a confirmed remove of
`"Eggs"` and a clear-all both end Idle with a cleared input. -/
theorem c10_witness :
    idleCleared (removeItem 0 true
      (⟨some ["Eggs", "Milk"],
        [⟨"Eggs", false, true⟩, ⟨"Milk", true, true⟩], "Milk", true, false, false⟩ : AppState)) ∧
    idleCleared (clearItems
      (⟨some ["Eggs", "Milk"],
        [⟨"Eggs", false, true⟩, ⟨"Milk", true, true⟩], "Milk", true, false, false⟩ : AppState)) := by
  have h := c10_mutations_end_idle
    ⟨some ["Eggs", "Milk"],
      [⟨"Eggs", false, true⟩, ⟨"Milk", true, true⟩], "Milk", true, false, false⟩ 0
  exact ⟨h.2.1 (by decide), h.2.2⟩
